import Mathlib

/-!
Shallow embedding of `hermes/util.py`: project-wide notification utilities.

The module has four entry points:
  * `id_generator(size, chars)` — random id built from `random.choice`;
  * `slack_message(message)` — optional webhook POST with an optional proxy map;
  * `email_message(recipients, subject, message, html_message, cc, sender)` —
    recipient normalization, dev-environment redirect, MIME assembly, SMTP send;
  * `PluginHelper.request_get / request_post` — thin HTTP pass-throughs.

Python's duck-typed "string or list" arguments are embedded as `PyVal`.
Python truthiness of a string is `s ≠ ""`; of a list, `l ≠ []`; configuration
values that may be unset (`slack_webhook`, `slack_proxyhost`) are embedded as
strings where `""` stands for an unset/falsy value, which is how the code
tests them (`if not settings.slack_webhook`).  Exceptions are embedded with
`Except String`; the two points where external calls may raise inside
`email_message` (the `logging.debug` line and the `smtplib` block) are driven
by explicit boolean oracles `log_raises` / `smtp_raises`.
-/

set_option autoImplicit false

namespace Hermes

/-- A Python value that is either a string or a (possibly nested) list,
covering every shape the duck-typed `recipients` / `cc` /
`settings.email_always_copy` arguments can take in the code's branches. -/
inductive PyVal where
  | str : String → PyVal
  | list : List PyVal → PyVal

mutual

def decEqPyVal : (a b : PyVal) → Decidable (a = b)
  | .str a, .str b =>
      match decEq a b with
      | isTrue h => isTrue (by rw [h])
      | isFalse h => isFalse (by intro hc; cases hc; exact h rfl)
  | .str _, .list _ => isFalse (by intro h; cases h)
  | .list _, .str _ => isFalse (by intro h; cases h)
  | .list a, .list b =>
      match decEqPyValList a b with
      | isTrue h => isTrue (by rw [h])
      | isFalse h => isFalse (by intro hc; cases hc; exact h rfl)

def decEqPyValList : (a b : List PyVal) → Decidable (a = b)
  | [], [] => isTrue rfl
  | [], _ :: _ => isFalse (by intro h; cases h)
  | _ :: _, [] => isFalse (by intro h; cases h)
  | a :: as, b :: bs =>
      match decEqPyVal a b, decEqPyValList as bs with
      | isTrue h1, isTrue h2 => isTrue (by rw [h1, h2])
      | isFalse h1, _ => isFalse (by intro hc; cases hc; exact h1 rfl)
      | _, isFalse h2 => isFalse (by intro hc; cases hc; exact h2 rfl)

end

instance : DecidableEq PyVal := decEqPyVal

def decEqExcept {ε α : Type} [DecidableEq ε] [DecidableEq α] :
    (a b : Except ε α) → Decidable (a = b)
  | .ok a, .ok b =>
      match decEq a b with
      | isTrue h => isTrue (by rw [h])
      | isFalse h => isFalse (by intro hc; cases hc; exact h rfl)
  | .error a, .error b =>
      match decEq a b with
      | isTrue h => isTrue (by rw [h])
      | isFalse h => isFalse (by intro hc; cases hc; exact h rfl)
  | .ok _, .error _ => isFalse (by intro h; cases h)
  | .error _, .ok _ => isFalse (by intro h; cases h)

instance {ε α : Type} [DecidableEq ε] [DecidableEq α] : DecidableEq (Except ε α) :=
  decEqExcept

/-- Python truthiness for `PyVal`: a string is truthy iff nonempty, a list is
truthy iff nonempty. -/
def PyVal.truthy : PyVal → Bool
  | .str s => s != ""
  | .list l => !l.isEmpty

/-- Python `s.split(",")` on the character list: split at every comma,
keeping empty fields, with `"" → [""]`. -/
def pySplitChars : List Char → List (List Char)
  | [] => [[]]
  | c :: rest =>
    if c = ',' then
      [] :: pySplitChars rest
    else
      match pySplitChars rest with
      | [] => [[c]]
      | g :: gs => (c :: g) :: gs

/-- Python `s.split(",")`. -/
def pySplit (s : String) : List String :=
  (pySplitChars s.data).map String.mk

mutual

/-- Python `repr` of a value, as used when a list of recipients is formatted
into the dev-redirect notice via `"{}".format(list)`.  Quote escaping inside
the address strings is not modelled; no claim depends on it and addresses do
not contain quotes. -/
def PyVal.pyRepr : PyVal → String
  | .str s => "\x27" ++ s ++ "\x27"
  | .list l => "[" ++ pyReprItems l ++ "]"

/-- The comma-separated item reprs inside a Python list repr. -/
def pyReprItems : List PyVal → String
  | [] => ""
  | [v] => v.pyRepr
  | v :: rest => v.pyRepr ++ ", " ++ pyReprItems rest

end

/-- Python `repr` of a list of values (`"{}".format(recipients)` where
`recipients` is a list). -/
def pyListRepr (l : List PyVal) : String :=
  "[" ++ pyReprItems l ++ "]"

/-- The configuration surface read from `hermes.settings.settings`. -/
structure Settings where
  slack_webhook : String
  slack_proxyhost : String
  email_notifications : Bool
  email_always_copy : PyVal
  email_sender_address : String
  environment : String
  dev_email_recipient : String
  query_server : String
  deriving DecidableEq

/-! ## `id_generator` -/

/-- Embeds `random.choice(chars)`: returns an element of `chars` at a valid index
chosen by the random source. -/
def randomChoice {α : Type} (xs : List α) (k : Fin xs.length) : α :=
  xs.get k

/-- Embeds `id_generator(size, chars)`, which joins `size` draws of
`random.choice(chars)`.  The random source is abstracted as `pick`, giving the index
`random.choice` draws at each of the `size` rounds. -/
def id_generator (size : Nat) (chars : List Char)
    (pick : Nat → Fin chars.length) : String :=
  String.mk ((List.range size).map (fun i => randomChoice chars (pick i)))

/-- Embeds `string.ascii_lowercase`. -/
def ascii_lowercase : String := "abcdefghijklmnopqrstuvwxyz"

/-- Embeds `string.digits`. -/
def digits : String := "0123456789"

/-- The default `chars` argument of `id_generator`:
`string.ascii_lowercase + string.digits`. -/
def id_default_chars : String := ascii_lowercase ++ digits

/-! ## `slack_message` -/

/-- The observable effect of `slack_message`: the `requests.post` call it
issues, or `none` when no webhook is configured and the function is a no-op. -/
structure SlackPost where
  url : String
  payload_text : String
  payload_username : String
  payload_icon : String
  proxies : Option (List (String × String))
  deriving DecidableEq

/-- Embeds `slack_message(message)`: no-op without a webhook; otherwise POST the
fixed-shape payload to the webhook, with an `http`/`https` proxy map iff a
proxy host is configured.  The POST itself is wrapped in `try/except`, so its
failure is invisible; the returned value records what was submitted. -/
def slack_message (st : Settings) (message : String) : Option SlackPost :=
  if st.slack_webhook = "" then
    none
  else
    let proxies : Option (List (String × String)) :=
      if st.slack_proxyhost = "" then
        none
      else
        some [("http", "http://" ++ st.slack_proxyhost),
              ("https", "http://" ++ st.slack_proxyhost)]
    some { url := st.slack_webhook
           payload_text := message
           payload_username := "Hermes Log"
           payload_icon := ":hermes:"
           proxies := proxies }

/-! ## `PluginHelper` -/

/-- The raw transport response handed back by `requests.get`/`requests.post`. -/
structure HttpResponse where
  status : Nat
  body : String
  deriving DecidableEq

/-- Embeds `PluginHelper.request_get(path, params, server)`: default `server` to
`settings.query_server` when falsy (`if not server`), issue
`requests.get(server + path, params=params)` and return its result unchanged;
no `try` block, so a transport exception propagates. -/
def request_get (st : Settings) (path : String) (params : List (String × String))
    (server : Option String)
    (transport : String → List (String × String) → Except String HttpResponse) :
    Except String HttpResponse :=
  let server' : String :=
    match server with
    | none => st.query_server
    | some s => if s = "" then st.query_server else s
  transport (server' ++ path) params

/-- Embeds `PluginHelper.request_post(path, params, json_body, server)`: same server
defaulting and verbatim `server + path` concatenation as `request_get`, with a
JSON body; the transport result is returned unchanged and exceptions
propagate. -/
def request_post (st : Settings) (path : String) (params : List (String × String))
    (json_body : List (String × String)) (server : Option String)
    (transport : String → List (String × String) → List (String × String) →
      Except String HttpResponse) :
    Except String HttpResponse :=
  let server' : String :=
    match server with
    | none => st.query_server
    | some s => if s = "" then st.query_server else s
  transport (server' ++ path) params json_body

/-! ## `email_message` -/

/-- Step 2 of `email_message`: `if isinstance(recipients, basestring):
recipients = recipients.split(",")`.  A string is split on commas; a list is
left as it is. -/
def normRecipients : PyVal → List PyVal
  | .str s => (pySplit s).map PyVal.str
  | .list l => l

/-- Step 3: `if isinstance(settings.email_always_copy, basestring):
extra_recipients = settings.email_always_copy.split(",") else:
extra_recipients = [settings.email_always_copy]`.  A string is split on
commas; every other value — including a value that is already a list — is
wrapped in a one-element list. -/
def normAlwaysCopy : PyVal → List PyVal
  | .str s => (pySplit s).map PyVal.str
  | v => [v]

/-- Step 4: `if cc and isinstance(cc, basestring):
extra_recipients.append(cc) elif cc: extra_recipients.extend(cc)`.  A truthy
string `cc` is appended whole (it is not split on commas); a truthy list is
extended element-wise; a falsy or absent `cc` leaves `extra` unchanged. -/
def addCc (extra : List PyVal) : Option PyVal → List PyVal
  | none => extra
  | some v =>
    if v.truthy then
      match v with
      | .str s => extra ++ [.str s]
      | .list l => extra ++ l
    else extra

/-- Python truthiness of the `html_message` argument (`if html_message:`):
present and nonempty. -/
def htmlTruthy : Option String → Bool
  | some s => s != ""
  | none => false

/-- The state of the mutable locals `recipients`, `extra_recipients`,
`subject`, `message`, `html_message` after the normalization steps 2–4 and
the dev-environment redirect step 5. -/
structure Prepared where
  recipients : List PyVal
  extra : List PyVal
  subject : String
  message : String
  html : Option String
  deriving DecidableEq

/-- Steps 2–5 of `email_message`: normalize `recipients` / always-copy / `cc`,
then, when `settings.environment == "dev"`, prefix the subject with
`"[DEV] "`, prefix the plain body (and the HTML body when truthy) with the
redirect notice built from the pre-redirect lists, and replace the recipient
list with `[settings.dev_email_recipient]` and `extra_recipients` with `[]`. -/
def prepare (st : Settings) (recipients0 : PyVal) (subject0 message0 : String)
    (html0 : Option String) (cc : Option PyVal) : Prepared :=
  let r1 := normRecipients recipients0
  let e1 := addCc (normAlwaysCopy st.email_always_copy) cc
  if st.environment = "dev" then
    let stmt := "To: " ++ pyListRepr r1 ++ "   CC: " ++ pyListRepr e1 ++ "\n"
    { recipients := [PyVal.str st.dev_email_recipient]
      extra := []
      subject := "[DEV] " ++ subject0
      message := "[DEV]: Sent to " ++ st.dev_email_recipient ++
        "\nOriginally addressed as: " ++ stmt ++ "\n\n" ++ message0
      html :=
        match html0 with
        | some hm =>
          if hm != "" then
            some ("<p><strong>DEV:</strong> Sent to " ++ st.dev_email_recipient ++
              "<br />Originally addressed as: " ++ stmt ++ "<br/></p>" ++ hm)
          else some hm
        | none => none }
  else
    { recipients := r1, extra := e1, subject := subject0, message := message0
      html := html0 }

/-- A MIME body part (`MIMEText(content, subtype)`). -/
structure MimePart where
  content : String
  subtype : String
  deriving DecidableEq

/-- The wire message body: either the bare plain-text part (`msg = part1`) or
a `MIMEMultipart('alternative')` with the plain part attached first and the
HTML part attached second. -/
inductive MimeMsg where
  | single (part : MimePart)
  | alternative (part1 part2 : MimePart)
  deriving DecidableEq

/-- Step 6: `part1 = MIMEText(message, 'plain')`; `part2 = MIMEText(
html_message, 'html')` when `html_message` is truthy, else `None`; a fresh
`MIMEText` carries headers so `part1` is always truthy, hence the message is
multipart exactly when `part2` exists. -/
def buildMime (message : String) (html : Option String) : MimeMsg :=
  match html with
  | some hm =>
    if hm != "" then
      MimeMsg.alternative ⟨message, "plain"⟩ ⟨hm, "html"⟩
    else
      MimeMsg.single ⟨message, "plain"⟩
  | none => MimeMsg.single ⟨message, "plain"⟩

/-- Embeds a comma-space join over Python values: succeeds with the joined string when
every element is a string and raises a `TypeError` otherwise.  The join runs
outside the `try` block, so its exception propagates. -/
def pyStrings : List PyVal → Except String (List String)
  | [] => .ok []
  | .str s :: rest => (pyStrings rest).map (s :: ·)
  | .list _ :: _ => .error "TypeError: sequence item: expected string, list found"

/-- Embeds `sep.join(xs)` for a list of Python values. -/
def pyJoin (sep : String) (xs : List PyVal) : Except String String :=
  (pyStrings xs).map (String.intercalate sep)

/-- The headers and body set on the wire message in step 7. -/
structure WireMessage where
  mime : MimeMsg
  subject : String
  from_addr : String
  to_header : String
  cc_header : String
  deriving DecidableEq

/-- The SMTP submission of step 9: `smtp.sendmail(
settings.email_sender_address, recipients + extra_recipients,
msg.as_string())`.  The envelope recipient list handed to `sendmail` is
`env_recipients ++ env_extra`. -/
structure SmtpSend where
  envelope_from : String
  env_recipients : List PyVal
  env_extra : List PyVal
  msg : WireMessage
  deriving DecidableEq

/-- The envelope recipient list exactly as passed to `smtp.sendmail`:
`recipients + extra_recipients`. -/
def SmtpSend.rcptTo (s : SmtpSend) : List PyVal :=
  s.env_recipients ++ s.env_extra

/-- What a completed `email_message` call did: nothing (notifications
disabled), or a submission attempt — `delivered = false` records that the
SMTP block raised and the exception was logged and swallowed. -/
inductive EmailOutcome where
  | noop
  | completed (send : SmtpSend) (delivered : Bool)
  deriving DecidableEq

/-- Step 7: `msg["From"] = settings.email_sender_address if not sender else
sender` — the configured sender when the argument is falsy (absent or empty),
the argument itself otherwise. -/
def fromHeader (st : Settings) (sender : Option String) : String :=
  match sender with
  | some s => if s = "" then st.email_sender_address else s
  | none => st.email_sender_address

/-- Embeds `email_message(recipients, subject, message, html_message, cc,
sender)`.
`log_raises` / `smtp_raises` are oracles for an exception inside the
`logging.debug` call of step 8 (outside the `try` block) and inside the
`smtplib` block of step 9 (inside the `try` block).  An `Except.error` result
is an exception propagating to the caller. -/
def email_message (st : Settings) (recipients0 : PyVal)
    (subject0 message0 : String) (html0 : Option String) (cc : Option PyVal)
    (sender : Option String) (log_raises smtp_raises : Bool) :
    Except String EmailOutcome :=
  if st.email_notifications = false then
    Except.ok EmailOutcome.noop
  else
    match pyJoin ", " (prepare st recipients0 subject0 message0 html0 cc).recipients with
    | .error e => .error e
    | .ok toH =>
      match pyJoin ", " (prepare st recipients0 subject0 message0 html0 cc).extra with
      | .error e => .error e
      | .ok ccH =>
        if log_raises then
          Except.error "exception while logging outbound attempt"
        else
          Except.ok (EmailOutcome.completed
            { envelope_from := st.email_sender_address
              env_recipients := (prepare st recipients0 subject0 message0 html0 cc).recipients
              env_extra := (prepare st recipients0 subject0 message0 html0 cc).extra
              msg :=
                { mime := buildMime
                    (prepare st recipients0 subject0 message0 html0 cc).message
                    (prepare st recipients0 subject0 message0 html0 cc).html
                  subject := (prepare st recipients0 subject0 message0 html0 cc).subject
                  from_addr := fromHeader st sender
                  to_header := toH
                  cc_header := ccH } }
            (!smtp_raises))

/-! ### Outcome projections, used to state the claims without binders -/

/-- Whether the call returned normally with a submission attempt. -/
def outcomeCompleted : Except String EmailOutcome → Bool
  | .ok (.completed _ _) => true
  | _ => false

/-- The `recipients` list at submission time, when a submission happened. -/
def outcomeRecipients : Except String EmailOutcome → Option (List PyVal)
  | .ok (.completed s _) => some s.env_recipients
  | _ => none

/-- The `extra_recipients` list at submission time, when a submission
happened. -/
def outcomeExtra : Except String EmailOutcome → Option (List PyVal)
  | .ok (.completed s _) => some s.env_extra
  | _ => none

/-- The full envelope recipient list handed to `smtp.sendmail`. -/
def outcomeRcptTo : Except String EmailOutcome → Option (List PyVal)
  | .ok (.completed s _) => some s.rcptTo
  | _ => none

/-- The envelope sender handed to `smtp.sendmail`. -/
def outcomeEnvelopeFrom : Except String EmailOutcome → Option String
  | .ok (.completed s _) => some s.envelope_from
  | _ => none

/-- The `Subject` header of the submitted message. -/
def outcomeSubject : Except String EmailOutcome → Option String
  | .ok (.completed s _) => some s.msg.subject
  | _ => none

/-- The `From` header of the submitted message. -/
def outcomeFromHeader : Except String EmailOutcome → Option String
  | .ok (.completed s _) => some s.msg.from_addr
  | _ => none

/-- The MIME body of the submitted message. -/
def outcomeMime : Except String EmailOutcome → Option MimeMsg
  | .ok (.completed s _) => some s.msg.mime
  | _ => none

/-- Whether the wire message is a single plain-text part. -/
def MimeMsg.isSinglePlain : MimeMsg → Bool
  | .single p => p.subtype == "plain"
  | _ => false

/-- Whether the wire message is a two-part `alternative` with the plain part
first and the HTML part second. -/
def MimeMsg.isAltPlainThenHtml : MimeMsg → Bool
  | .alternative p1 p2 => p1.subtype == "plain" && p2.subtype == "html"
  | _ => false

/-! ## Shared lemmas about `email_message` -/

/-- A string starting with a nonempty literal is nonempty. -/
theorem append_ne_empty_left (a b : String) (h : a ≠ "") : a ++ b ≠ "" := by
  intro hc
  apply h
  have hd := congrArg String.data hc
  rw [String.data_append] at hd
  obtain ⟨h1, -⟩ := List.append_eq_nil.mp hd
  cases a
  simpa [String.ext_iff] using h1

/-- The dev redirect of step 5 prefixes the HTML body only when it is truthy,
so truthiness of `html_message` is unchanged by `prepare`. -/
theorem htmlTruthy_prepare (st : Settings) (r0 : PyVal) (s0 m0 : String)
    (h0 : Option String) (cc : Option PyVal) :
    htmlTruthy (prepare st r0 s0 m0 h0 cc).html = htmlTruthy h0 := by
  unfold prepare
  split
  · cases h0 with
    | none => rfl
    | some hm =>
      by_cases hhm : hm = ""
      · subst hhm
        simp [htmlTruthy]
      · have hne2 : ("<p><strong>DEV:</strong> Sent to " ++ st.dev_email_recipient ++
            "<br />Originally addressed as: " ++
            ("To: " ++ pyListRepr (normRecipients r0) ++ "   CC: " ++
              pyListRepr (addCc (normAlwaysCopy st.email_always_copy) cc) ++ "\n") ++
            "<br/></p>" ++ hm) ≠ "" := by
          apply append_ne_empty_left
          apply append_ne_empty_left
          apply append_ne_empty_left
          apply append_ne_empty_left
          apply append_ne_empty_left
          simp
        simp only [htmlTruthy]
        simp [hhm]
        rw [bne_iff_ne.mpr hne2, bne_iff_ne.mpr hhm]
  · rfl

/-- Inversion for a completed `email_message` run: the submission recorded in
the outcome is built from the prepared state, the envelope sender is the
configured address, the `From` header follows `fromHeader`, a completed run
means the logging step did not raise, and the delivered flag mirrors the SMTP
oracle. -/
theorem email_message_completed_inv {st : Settings} {r0 : PyVal}
    {s0 m0 : String} {h0 : Option String} {cc : Option PyVal}
    {snd : Option String} {lr sb : Bool} {send : SmtpSend} {d : Bool}
    (h : email_message st r0 s0 m0 h0 cc snd lr sb =
      Except.ok (EmailOutcome.completed send d)) :
    st.email_notifications = true ∧ lr = false ∧ d = !sb ∧
    send.envelope_from = st.email_sender_address ∧
    send.env_recipients = (prepare st r0 s0 m0 h0 cc).recipients ∧
    send.env_extra = (prepare st r0 s0 m0 h0 cc).extra ∧
    send.msg.subject = (prepare st r0 s0 m0 h0 cc).subject ∧
    send.msg.from_addr = fromHeader st snd ∧
    send.msg.mime = buildMime (prepare st r0 s0 m0 h0 cc).message
      (prepare st r0 s0 m0 h0 cc).html ∧
    pyJoin ", " (prepare st r0 s0 m0 h0 cc).recipients =
      Except.ok send.msg.to_header ∧
    pyJoin ", " (prepare st r0 s0 m0 h0 cc).extra =
      Except.ok send.msg.cc_header := by
  unfold email_message at h
  split at h
  · rename_i hdis
    simp at h
  · rename_i hen
    split at h
    · simp at h
    · rename_i toH heq1
      split at h
      · simp at h
      · rename_i ccH heq2
        split at h
        · simp at h
        · rename_i hlr
          have hen' : st.email_notifications = true := by
            revert hen
            cases st.email_notifications <;> simp
          have hlr' : lr = false := by
            revert hlr
            cases lr <;> simp
          rw [Except.ok.injEq, EmailOutcome.completed.injEq] at h
          obtain ⟨hsend, hd⟩ := h
          subst hsend
          subst hd
          exact ⟨hen', hlr', rfl, rfl, rfl, rfl, rfl, rfl, rfl, heq1, heq2⟩

/-! ## Concrete configurations used to exercise the claims -/

/-- A production-environment configuration. -/
def stProd : Settings :=
  { slack_webhook := "https://hooks.example.com/T0"
    slack_proxyhost := "proxy.example.com"
    email_notifications := true
    email_always_copy := PyVal.str "c@x.com"
    email_sender_address := "hermes@x.com"
    environment := "prod"
    dev_email_recipient := "dev@x.com"
    query_server := "https://query.example.com" }

/-- The same configuration in the `dev` environment. -/
def stDev : Settings := { stProd with environment := "dev" }

/-- The same configuration with email notifications disabled. -/
def stOff : Settings := { stProd with email_notifications := false }

/-- The same configuration with an always-copy value that is already a list. -/
def stListCopy : Settings :=
  { stProd with
      email_always_copy := PyVal.list [PyVal.str "a@x.com", PyVal.str "b@x.com"] }

/-- A sample character pool for `id_generator`. -/
def sampleChars : List Char := ['a', 'b', 'c']

/-- A sample random source over `sampleChars`. -/
def samplePick : Nat → Fin sampleChars.length := fun _ => ⟨0, by decide⟩

/-- A sample GET transport recording the URL it was handed. -/
def sampleGetTransport :
    String → List (String × String) → Except String HttpResponse :=
  fun url _ => Except.ok ⟨200, url⟩

/-- A sample POST transport that raises, recording the URL it was handed. -/
def samplePostTransport :
    String → List (String × String) → List (String × String) →
      Except String HttpResponse :=
  fun url _ _ => Except.error url

/-! ## Claims -/

/-- C10: for every size `n` and non-empty character pool `chars`,
`id_generator(n, chars)` returns a string of length exactly `n` whose every
character is drawn from `chars`; the default pool is the lowercase ASCII
letters followed by the decimal digits. -/
theorem id_generator_length_mem (n : Nat) (chars : List Char)
    (_hne : chars ≠ []) (pick : Nat → Fin chars.length) :
    (id_generator n chars pick).length = n ∧
    (id_generator n chars pick).data.all chars.contains = true ∧
    id_default_chars = "abcdefghijklmnopqrstuvwxyz0123456789" := by
  refine ⟨?_, ?_, rfl⟩
  · simp [id_generator, String.length]
  · rw [List.all_eq_true]
    intro c hc
    have hc' : c ∈ (List.range n).map (fun i => randomChoice chars (pick i)) := hc
    obtain ⟨i, _, hci⟩ := List.mem_map.mp hc'
    have hmem : c ∈ chars := by
      rw [← hci]
      exact chars.get_mem _ _
    exact List.elem_eq_true_of_mem hmem

/-- Witness for C10 at a concrete pool and random source. -/
theorem id_generator_length_mem_witness :
    (id_generator 5 sampleChars samplePick).length = 5 ∧
    (id_generator 5 sampleChars samplePick).data.all sampleChars.contains = true ∧
    id_default_chars = "abcdefghijklmnopqrstuvwxyz0123456789" :=
  id_generator_length_mem 5 sampleChars (by decide) samplePick

/-- C7: when the email-notifications flag is disabled, `email_message`
returns immediately as a no-op for every input: no normalization, message
construction or SMTP submission is reflected in the outcome, and this holds
even when the logging or SMTP oracles would raise. -/
theorem email_message_disabled_noop (st : Settings) (r0 : PyVal)
    (s0 m0 : String) (h0 : Option String) (cc : Option PyVal)
    (snd : Option String) (lr sb : Bool)
    (hdis : st.email_notifications = false) :
    email_message st r0 s0 m0 h0 cc snd lr sb = Except.ok EmailOutcome.noop := by
  unfold email_message
  simp [hdis]

/-- Witness for C7 at a concrete disabled configuration. -/
theorem email_message_disabled_noop_witness :
    email_message stOff (PyVal.str "a@x.com") "subj" "body" (some "<b>hi</b>")
      (some (PyVal.str "cc@x.com")) (some "s@x.com") true true =
      Except.ok EmailOutcome.noop :=
  email_message_disabled_noop stOff (PyVal.str "a@x.com") "subj" "body"
    (some "<b>hi</b>") (some (PyVal.str "cc@x.com")) (some "s@x.com") true true rfl

/-- C6: whenever `slack_message` posts (a webhook is configured), a
configured proxy host yields a proxy map with exactly the two entries
`http` and `https`, both equal to the same address built from that host,
and an unset proxy host yields no proxy map. -/
theorem slack_message_proxies (st : Settings) (message : String)
    (post : SlackPost) (h : slack_message st message = some post) :
    (st.slack_proxyhost ≠ "" →
      post.proxies = some [("http", "http://" ++ st.slack_proxyhost),
                           ("https", "http://" ++ st.slack_proxyhost)]) ∧
    (st.slack_proxyhost = "" → post.proxies = none) := by
  unfold slack_message at h
  split at h
  · simp at h
  · have h' := Option.some.inj h
    subst h'
    constructor
    · intro hp
      simp [hp]
    · intro hp
      simp [hp]

/-- Witness for C6 at a concrete configuration with a proxy host. -/
theorem slack_message_proxies_witness :
    ((slack_message stProd "hello").getD
        ⟨"", "", "", "", none⟩).proxies =
      some [("http", "http://" ++ stProd.slack_proxyhost),
            ("https", "http://" ++ stProd.slack_proxyhost)] :=
  (slack_message_proxies stProd "hello"
      ((slack_message stProd "hello").getD ⟨"", "", "", "", none⟩)
      (by decide)).1 (by decide)

/-- C8: `request_get` and `request_post` default the server to the
configured query-server base URL when it is not supplied, request the
verbatim concatenation `server ++ path`, and hand back the transport's
result unchanged — so a transport error propagates to the caller. -/
theorem request_get_post_spec (st : Settings) (path : String)
    (params json_body : List (String × String))
    (tg : String → List (String × String) → Except String HttpResponse)
    (tp : String → List (String × String) → List (String × String) →
      Except String HttpResponse) :
    request_get st path params none tg = tg (st.query_server ++ path) params ∧
    request_post st path params json_body none tp =
      tp (st.query_server ++ path) params json_body ∧
    (∀ srv : String, srv ≠ "" →
      request_get st path params (some srv) tg = tg (srv ++ path) params ∧
      request_post st path params json_body (some srv) tp =
        tp (srv ++ path) params json_body) := by
  refine ⟨rfl, rfl, ?_⟩
  intro srv hsrv
  constructor
  · simp [request_get, hsrv]
  · simp [request_post, hsrv]

/-- Witness for C8 at concrete paths, servers and transports (the POST
transport raises, so the propagated error is observable). -/
theorem request_get_post_spec_witness :
    request_get stProd "/api/v1/hosts" [("q", "1")] none sampleGetTransport =
      sampleGetTransport (stProd.query_server ++ "/api/v1/hosts") [("q", "1")] ∧
    request_post stProd "/api/v1/hosts" [("q", "1")] [("k", "v")] none
        samplePostTransport =
      samplePostTransport (stProd.query_server ++ "/api/v1/hosts") [("q", "1")]
        [("k", "v")] ∧
    request_get stProd "/api/v1/hosts" [("q", "1")] (some "https://alt.example.com")
        sampleGetTransport =
      sampleGetTransport ("https://alt.example.com" ++ "/api/v1/hosts") [("q", "1")] :=
  ⟨(request_get_post_spec stProd "/api/v1/hosts" [("q", "1")] [("k", "v")]
      sampleGetTransport samplePostTransport).1,
   (request_get_post_spec stProd "/api/v1/hosts" [("q", "1")] [("k", "v")]
      sampleGetTransport samplePostTransport).2.1,
   ((request_get_post_spec stProd "/api/v1/hosts" [("q", "1")] [("k", "v")]
      sampleGetTransport samplePostTransport).2.2 "https://alt.example.com"
      (by decide)).1⟩

/-- In the dev environment the redirect replaces the recipient list with the
configured dev recipient alone. -/
theorem prepare_dev_recipients (st : Settings) (r0 : PyVal) (s0 m0 : String)
    (h0 : Option String) (cc : Option PyVal) (hdev : st.environment = "dev") :
    (prepare st r0 s0 m0 h0 cc).recipients = [PyVal.str st.dev_email_recipient] := by
  simp [prepare, hdev]

/-- In the dev environment the redirect empties `extra_recipients`. -/
theorem prepare_dev_extra (st : Settings) (r0 : PyVal) (s0 m0 : String)
    (h0 : Option String) (cc : Option PyVal) (hdev : st.environment = "dev") :
    (prepare st r0 s0 m0 h0 cc).extra = [] := by
  simp [prepare, hdev]

/-- In the dev environment the redirect prefixes the subject with `[DEV] `. -/
theorem prepare_dev_subject (st : Settings) (r0 : PyVal) (s0 m0 : String)
    (h0 : Option String) (cc : Option PyVal) (hdev : st.environment = "dev") :
    (prepare st r0 s0 m0 h0 cc).subject = "[DEV] " ++ s0 := by
  simp [prepare, hdev]

/-- C1: with email notifications enabled and the environment equal to `dev`,
every `email_message` call that reaches the SMTP submission hands `sendmail`
exactly the one-element envelope `[dev_email_recipient]`, with an empty
`extra_recipients` list and the subject prefixed with `[DEV] `, regardless of
the original `recipients` and `cc` arguments. -/
theorem email_message_dev_redirect (st : Settings) (r0 : PyVal)
    (s0 m0 : String) (h0 : Option String) (cc : Option PyVal)
    (snd : Option String) (sb : Bool)
    (hen : st.email_notifications = true) (hdev : st.environment = "dev") :
    outcomeCompleted (email_message st r0 s0 m0 h0 cc snd false sb) = true ∧
    outcomeRecipients (email_message st r0 s0 m0 h0 cc snd false sb) =
      some [PyVal.str st.dev_email_recipient] ∧
    outcomeExtra (email_message st r0 s0 m0 h0 cc snd false sb) = some [] ∧
    outcomeRcptTo (email_message st r0 s0 m0 h0 cc snd false sb) =
      some [PyVal.str st.dev_email_recipient] ∧
    outcomeSubject (email_message st r0 s0 m0 h0 cc snd false sb) =
      some ("[DEV] " ++ s0) := by
  unfold email_message
  rw [hen]
  simp only [Bool.true_eq_false, if_false,
    prepare_dev_recipients st r0 s0 m0 h0 cc hdev,
    prepare_dev_extra st r0 s0 m0 h0 cc hdev,
    prepare_dev_subject st r0 s0 m0 h0 cc hdev]
  simp [pyJoin, pyStrings, Except.map, outcomeCompleted, outcomeRecipients,
    outcomeExtra, outcomeRcptTo, outcomeSubject, SmtpSend.rcptTo]

/-- Witness for C1: a concrete dev-environment call originally addressed to
two recipients with a CC is redirected to the dev recipient alone. -/
theorem email_message_dev_redirect_witness :
    outcomeCompleted (email_message stDev (PyVal.str "a@x.com,b@x.com") "subj"
      "body" none (some (PyVal.str "cc@x.com")) none false false) = true ∧
    outcomeRecipients (email_message stDev (PyVal.str "a@x.com,b@x.com") "subj"
      "body" none (some (PyVal.str "cc@x.com")) none false false) =
      some [PyVal.str stDev.dev_email_recipient] ∧
    outcomeExtra (email_message stDev (PyVal.str "a@x.com,b@x.com") "subj"
      "body" none (some (PyVal.str "cc@x.com")) none false false) = some [] ∧
    outcomeRcptTo (email_message stDev (PyVal.str "a@x.com,b@x.com") "subj"
      "body" none (some (PyVal.str "cc@x.com")) none false false) =
      some [PyVal.str stDev.dev_email_recipient] ∧
    outcomeSubject (email_message stDev (PyVal.str "a@x.com,b@x.com") "subj"
      "body" none (some (PyVal.str "cc@x.com")) none false false) =
      some ("[DEV] " ++ "subj") :=
  email_message_dev_redirect stDev (PyVal.str "a@x.com,b@x.com") "subj" "body"
    none (some (PyVal.str "cc@x.com")) none false rfl rfl

/-- C9: every submission uses the configured sender address as the SMTP
envelope sender, even when an explicit `sender` argument is supplied; the
argument overrides only the `From` header, and a falsy argument (absent or
empty) leaves the `From` header at the configured sender address too. -/
theorem email_message_envelope_sender (st : Settings) (r0 : PyVal)
    (s0 m0 : String) (h0 : Option String) (cc : Option PyVal)
    (snd : Option String) (lr sb : Bool) (send : SmtpSend) (d : Bool)
    (h : email_message st r0 s0 m0 h0 cc snd lr sb =
      Except.ok (EmailOutcome.completed send d)) :
    send.envelope_from = st.email_sender_address ∧
    (∀ s : String, snd = some s → s ≠ "" → send.msg.from_addr = s) ∧
    (snd = none ∨ snd = some "" →
      send.msg.from_addr = st.email_sender_address) := by
  obtain ⟨-, -, -, henv, -, -, -, hfrom, -, -, -⟩ := email_message_completed_inv h
  refine ⟨henv, ?_, ?_⟩
  · intro s hs hsne
    rw [hfrom, hs]
    simp [fromHeader, hsne]
  · intro hs
    rcases hs with hs | hs <;> rw [hfrom, hs] <;> simp [fromHeader]

/-- The submission produced by the concrete C9 witness call: explicit sender
`boss@x.com`, one recipient, the configured always-copy address. -/
def sendBoss : SmtpSend :=
  { envelope_from := "hermes@x.com"
    env_recipients := [PyVal.str "a@x.com"]
    env_extra := [PyVal.str "c@x.com"]
    msg := { mime := MimeMsg.single ⟨"m", "plain"⟩
             subject := "s"
             from_addr := "boss@x.com"
             to_header := "a@x.com"
             cc_header := "c@x.com" } }

/-- Witness for C9: with an explicit sender argument the `From` header is the
argument but the envelope sender stays the configured address. -/
theorem email_message_envelope_sender_witness :
    sendBoss.envelope_from = stProd.email_sender_address ∧
    sendBoss.msg.from_addr = "boss@x.com" :=
  ⟨(email_message_envelope_sender stProd (PyVal.str "a@x.com") "s" "m" none none
      (some "boss@x.com") false false sendBoss true (by decide)).1,
   (email_message_envelope_sender stProd (PyVal.str "a@x.com") "s" "m" none none
      (some "boss@x.com") false false sendBoss true (by decide)).2.1 "boss@x.com"
      rfl (by decide)⟩

/-- C5: every submitted wire message is a single plain-text part when the
HTML body is absent or empty (before, equivalently after, the redirect step),
and a two-part `alternative` — plain part first, HTML part second — when the
HTML body is present and nonempty. -/
theorem email_message_mime_shape (st : Settings) (r0 : PyVal)
    (s0 m0 : String) (h0 : Option String) (cc : Option PyVal)
    (snd : Option String) (lr sb : Bool) (send : SmtpSend) (d : Bool)
    (h : email_message st r0 s0 m0 h0 cc snd lr sb =
      Except.ok (EmailOutcome.completed send d)) :
    (htmlTruthy h0 = true → send.msg.mime.isAltPlainThenHtml = true) ∧
    (htmlTruthy h0 = false → send.msg.mime.isSinglePlain = true) := by
  obtain ⟨-, -, -, -, -, -, -, -, hmime, -, -⟩ := email_message_completed_inv h
  have hht := htmlTruthy_prepare st r0 s0 m0 h0 cc
  constructor
  · intro htrue
    rw [htrue] at hht
    rw [hmime]
    cases hhtml : (prepare st r0 s0 m0 h0 cc).html with
    | none =>
      rw [hhtml] at hht
      simp [htmlTruthy] at hht
    | some hm =>
      rw [hhtml] at hht
      simp only [htmlTruthy] at hht
      simp [buildMime, hht, MimeMsg.isAltPlainThenHtml]
  · intro hfalse
    rw [hfalse] at hht
    rw [hmime]
    cases hhtml : (prepare st r0 s0 m0 h0 cc).html with
    | none =>
      simp [buildMime, MimeMsg.isSinglePlain]
    | some hm =>
      rw [hhtml] at hht
      simp only [htmlTruthy] at hht
      simp [buildMime, hht, MimeMsg.isSinglePlain]

/-- The submission produced by the concrete C5 witness call: both a plain
and an HTML body. -/
def sendHtml : SmtpSend :=
  { envelope_from := "hermes@x.com"
    env_recipients := [PyVal.str "a@x.com"]
    env_extra := [PyVal.str "c@x.com"]
    msg := { mime := MimeMsg.alternative ⟨"m", "plain"⟩ ⟨"<b>m</b>", "html"⟩
             subject := "s"
             from_addr := "hermes@x.com"
             to_header := "a@x.com"
             cc_header := "c@x.com" } }

/-- Witness for C5: a concrete call with an HTML body yields the two-part
`alternative` wire message with the plain part first. -/
theorem email_message_mime_shape_witness :
    sendHtml.msg.mime.isAltPlainThenHtml = true :=
  (email_message_mime_shape stProd (PyVal.str "a@x.com") "s" "m"
      (some "<b>m</b>") none none false false sendHtml true (by decide)).1
    (by decide)

/-- C3 counterexample: an always-copy configuration that is already a list is
not used as-is — the `else` branch wraps every non-string value, so the list
is nested inside a one-element list. -/
theorem normAlwaysCopy_list_counterexample :
    normAlwaysCopy (PyVal.list [PyVal.str "a@x.com", PyVal.str "b@x.com"]) =
      [PyVal.list [PyVal.str "a@x.com", PyVal.str "b@x.com"]] ∧
    normAlwaysCopy (PyVal.list [PyVal.str "a@x.com", PyVal.str "b@x.com"]) ≠
      [PyVal.str "a@x.com", PyVal.str "b@x.com"] :=
  ⟨rfl, by decide⟩

/-- C3 amended: the base `extra` list is the always-copy value split on
commas when it is a string, and otherwise the value wrapped in a one-element
list — even when the value is already a list. -/
theorem normAlwaysCopy_spec :
    (∀ s : String,
      normAlwaysCopy (PyVal.str s) = (pySplit s).map PyVal.str) ∧
    (∀ l : List PyVal, normAlwaysCopy (PyVal.list l) = [PyVal.list l]) :=
  ⟨fun _ => rfl, fun _ => rfl⟩

/-- C2 counterexample: a comma-joined cc string is appended to
`extra_recipients` whole, so it yields a different normalized extra list than
the equivalent list of addresses. -/
theorem email_message_cc_string_counterexample :
    outcomeExtra (email_message stProd (PyVal.str "r@x.com") "s" "m" none
      (some (PyVal.str "a@x.com,b@x.com")) none false false) =
      some [PyVal.str "c@x.com", PyVal.str "a@x.com,b@x.com"] ∧
    outcomeExtra (email_message stProd (PyVal.str "r@x.com") "s" "m" none
      (some (PyVal.list [PyVal.str "a@x.com", PyVal.str "b@x.com"])) none
      false false) =
      some [PyVal.str "c@x.com", PyVal.str "a@x.com", PyVal.str "b@x.com"] ∧
    ([PyVal.str "c@x.com", PyVal.str "a@x.com,b@x.com"] : List PyVal) ≠
      [PyVal.str "c@x.com", PyVal.str "a@x.com", PyVal.str "b@x.com"] :=
  ⟨by decide, by decide, by decide⟩

/-- C2 amended (and corrected): a comma-joined `recipients` string produces
exactly the same call behaviour as the equivalent list of addresses, but a
`cc` string is appended whole without splitting, so the string and list forms
of `cc` agree only in the single-address case: a nonempty comma-free string
and its one-element list. -/
theorem email_message_string_vs_list (st : Settings) (s0 m0 : String)
    (h0 : Option String) (snd : Option String) (lr sb : Bool) :
    (∀ (rs : String) (cc : Option PyVal),
      email_message st (PyVal.str rs) s0 m0 h0 cc snd lr sb =
        email_message st (PyVal.list ((pySplit rs).map PyVal.str)) s0 m0 h0 cc
          snd lr sb) ∧
    (∀ (r0 : PyVal) (a : String), a ≠ "" → a.data.contains ',' = false →
      email_message st r0 s0 m0 h0 (some (PyVal.str a)) snd lr sb =
        email_message st r0 s0 m0 h0 (some (PyVal.list [PyVal.str a])) snd
          lr sb) := by
  constructor
  · intro rs cc
    rfl
  · intro r0 a ha _hnc
    have haddcc : addCc (normAlwaysCopy st.email_always_copy)
        (some (PyVal.str a)) =
        addCc (normAlwaysCopy st.email_always_copy)
        (some (PyVal.list [PyVal.str a])) := by
      simp [addCc, PyVal.truthy, ha]
    have hp : prepare st r0 s0 m0 h0 (some (PyVal.str a)) =
        prepare st r0 s0 m0 h0 (some (PyVal.list [PyVal.str a])) := by
      unfold prepare
      rw [haddcc]
    simp only [email_message, hp]

/-- Witness for C2 amended: the recipients equivalence at a two-address
string, and the cc equivalence at a single nonempty comma-free address. -/
theorem email_message_string_vs_list_witness :
    email_message stProd (PyVal.str "a@x.com,b@x.com") "s" "m" none none none
      false false =
      email_message stProd
        (PyVal.list ((pySplit "a@x.com,b@x.com").map PyVal.str)) "s" "m" none
        none none false false ∧
    email_message stProd (PyVal.str "r@x.com") "s" "m" none
      (some (PyVal.str "cc@x.com")) none false false =
      email_message stProd (PyVal.str "r@x.com") "s" "m" none
        (some (PyVal.list [PyVal.str "cc@x.com"])) none false false :=
  ⟨(email_message_string_vs_list stProd "s" "m" none none false false).1
      "a@x.com,b@x.com" none,
   (email_message_string_vs_list stProd "s" "m" none none false false).2
      (PyVal.str "r@x.com") "cc@x.com" (by decide) (by decide)⟩

/-- C4 counterexample: an exception raised at the step-8 logging line
propagates to the caller — the `logging.debug` call sits before, not inside,
the `try` block — so `email_message` does not return normally. -/
theorem email_message_log_exception_counterexample :
    email_message stProd (PyVal.str "a@x.com") "s" "m" none none none true
      false =
      Except.error "exception while logging outbound attempt" := by
  decide

/-- C4 amended: only step 9 (SMTP connect, submit, close) runs inside the
`try` block: whenever a call would complete with the SMTP block succeeding,
the same call with the SMTP block raising still returns normally with the
same submission data, the exception being logged as a warning and swallowed.
An exception at the step-8 logging line, which runs before the `try` block,
propagates to the caller instead. -/
theorem email_message_smtp_swallowed (st : Settings) (r0 : PyVal)
    (s0 m0 : String) (h0 : Option String) (cc : Option PyVal)
    (snd : Option String) (send : SmtpSend) (d : Bool)
    (h : email_message st r0 s0 m0 h0 cc snd false false =
      Except.ok (EmailOutcome.completed send d)) :
    email_message st r0 s0 m0 h0 cc snd false true =
      Except.ok (EmailOutcome.completed send false) := by
  obtain ⟨hen, -, -, henv, hrec, hext, hsub, hfrom, hmime, hj1, hj2⟩ :=
    email_message_completed_inv h
  unfold email_message
  rw [if_neg (by simp [hen]), hj1, hj2, ← henv, ← hrec, ← hext, ← hsub,
    ← hfrom, ← hmime]
  rfl

/-- The submission produced by the concrete C4 witness call. -/
def sendPlain : SmtpSend :=
  { envelope_from := "hermes@x.com"
    env_recipients := [PyVal.str "a@x.com"]
    env_extra := [PyVal.str "c@x.com"]
    msg := { mime := MimeMsg.single ⟨"m", "plain"⟩
             subject := "s"
             from_addr := "hermes@x.com"
             to_header := "a@x.com"
             cc_header := "c@x.com" } }

/-- Witness for C4 amended: a concrete call whose SMTP block raises still
returns normally, with the submission recorded and `delivered = false`. -/
theorem email_message_smtp_swallowed_witness :
    email_message stProd (PyVal.str "a@x.com") "s" "m" none none none false
      true = Except.ok (EmailOutcome.completed sendPlain false) :=
  email_message_smtp_swallowed stProd (PyVal.str "a@x.com") "s" "m" none none
    none sendPlain true (by decide)

end Hermes
